import Mathlib

/-!
Shallow embedding of the plevee automated strategy-execution engine
(`app/tasks/strategy_executor.py` together with the entity model of
`app/core/database/models.py`), with theorems checking the engine's
specification against it.

Modelling conventions:
* All monetary and price values (`DECIMAL` columns, Python floats) are
  modelled as exact rationals (`ℚ`).
* The database session is modelled as an explicit `DB` value threaded
  through the functions; `session.add` + `session.commit` become a pure
  state update.
* The technical indicators are produced by the external TA-Lib library,
  which is not part of this repository; their numerics (RSI with Wilder
  smoothing, MACD from SMA-seeded EMAs, Bollinger bands with population
  standard deviation) are modelled here from the specification's formulas
  over `ℚ`.  Comparisons against a band `middle − 2·σ` are stated in an
  equivalent square-root-free form; a bridging lemma over `ℝ` justifies
  the reformulation.
* Fallible effects (the market-data provider call, the TA-Lib import) are
  modelled by explicit parameters: a `FetchResult` for the provider call
  and a `talibAvailable : Bool` flag; the Python `try/except` blocks that
  swallow those failures become the corresponding `none` branches.
-/

namespace Plevee

/-- One OHLCV price bar, as returned by `WebullService.get_bars`.
The Python `open` key is named `op` here (`open` is a Lean keyword). -/
structure Bar where
  timestamp : Nat
  op : ℚ
  hi : ℚ
  lo : ℚ
  close : ℚ
  volume : ℚ
deriving DecidableEq

/-- The `parameters` JSONB map of a strategy, restricted to the two keys the
executor reads: `parameters.get("symbol", "AAPL")` and
`parameters.get("quantity", 10)`.  A missing key is `none`. -/
structure StrategyParams where
  symbol : Option String
  quantity : Option ℚ
deriving DecidableEq

/-- `strategy.parameters.get("symbol", "AAPL")`. -/
def StrategyParams.getSymbol (p : StrategyParams) : String :=
  p.symbol.getD "AAPL"

/-- `strategy.parameters.get("quantity", 10)`. -/
def StrategyParams.getQuantity (p : StrategyParams) : ℚ :=
  p.quantity.getD 10

/-- The signal dict `{symbol, side, quantity, price}` built by
`_check_momentum_signal` / `_check_mean_reversion_signal`. -/
structure TradeSignal where
  symbol : String
  side : String
  quantity : ℚ
  price : ℚ
deriving DecidableEq

/-- Row of the `strategies` table (the columns the executor touches).
`last_executed_at` is the attribute assigned by `execute_strategy`
(the ORM model declares no such column; the assignment is kept here as
part of the task's visible state change). -/
structure Strategy where
  id : Nat
  portfolio_id : Nat
  strategy_type : String
  parameters : StrategyParams
  is_active : Bool
  last_executed_at : Option Nat
deriving DecidableEq

/-- Row of the `portfolios` table (the columns relevant to trading). -/
structure Portfolio where
  id : Nat
  initial_balance : ℚ
  current_balance : ℚ
  currency : String
  is_paper_trading : Bool
deriving DecidableEq

/-- Row of the `trades` table as constructed by `_execute_trade`
(`total_value` is passed by the executor even though the ORM model does
not declare such a column; the record is modelled as the executor builds
it). -/
structure Trade where
  portfolio_id : Nat
  symbol : String
  side : String
  quantity : ℚ
  price : ℚ
  total_value : ℚ
  order_type : String
  status : String
  executed_at : Nat
deriving DecidableEq

/-- Row of the `positions` table (the columns the specification talks
about). -/
structure Position where
  portfolio_id : Nat
  symbol : String
  quantity : ℚ
  average_entry_price : ℚ
deriving DecidableEq

/-- The database state visible to the executor. -/
structure DB where
  strategies : List Strategy
  portfolios : List Portfolio
  trades : List Trade
  positions : List Position
deriving DecidableEq

/-- Outcome of the `webull.get_bars` provider call: either a list of bars
or a raised exception (caught by the surrounding `try/except`). -/
inductive FetchResult where
  | ok (bars : List Bar)
  | err (msg : String)
deriving DecidableEq

instance instDecidableEqExcept {ε α : Type} [DecidableEq ε] [DecidableEq α] :
    DecidableEq (Except ε α) := fun a b =>
  match a, b with
  | .error x, .error y =>
    if h : x = y then isTrue (by rw [h])
    else isFalse (by intro he; injection he with h2; exact h h2)
  | .ok x, .ok y =>
    if h : x = y then isTrue (by rw [h])
    else isFalse (by intro he; injection he with h2; exact h h2)
  | .error _, .ok _ => isFalse (by intro he; cases he)
  | .ok _, .error _ => isFalse (by intro he; cases he)

/-! ### Technical indicators (TA-Lib numerics over ℚ) -/

/-- Consecutive close-to-close changes of a series. -/
def priceChanges (xs : List ℚ) : List ℚ :=
  List.zipWith (fun a b => b - a) xs xs.tail

/-- Wilder smoothing with period `n`: seed with the mean of the first `n`
values, then fold `acc ↦ (acc·(n−1) + x)/n` over the rest.  Used by
TA-Lib's RSI for the average gain and average loss. -/
def wilderSmooth (n : ℕ) (xs : List ℚ) : ℚ :=
  (xs.drop n).foldl (fun acc x => (acc * ((n : ℚ) - 1) + x) / (n : ℚ))
    ((xs.take n).sum / (n : ℚ))

/-- Last value of `talib.RSI(closes, timeperiod=n)`: `100·g/(g+l)` where
`g`, `l` are the Wilder-smoothed average gain and loss.  (In ℚ, `0/0 = 0`,
matching TA-Lib's output of `0` when both averages vanish.) -/
def rsiLast (n : ℕ) (closes : List ℚ) : ℚ :=
  let d := priceChanges closes
  let avgGain := wilderSmooth n (d.map (fun x => max x 0))
  let avgLoss := wilderSmooth n (d.map (fun x => max (-x) 0))
  100 * avgGain / (avgGain + avgLoss)

/-- One exponential-moving-average step with period `k`:
`e ↦ (x − e)·(2/(k+1)) + e`. -/
def emaStep (k : ℕ) (e x : ℚ) : ℚ :=
  (x - e) * (2 / ((k : ℚ) + 1)) + e

/-- The EMA series with period `k`, seeded with the SMA of the first `k`
values (TA-Lib's classic seeding); entry `i` corresponds to source index
`k − 1 + i`. -/
def emaSeries (k : ℕ) (xs : List ℚ) : List ℚ :=
  (xs.drop k).scanl (emaStep k) ((xs.take k).sum / (k : ℚ))

/-- The MACD(12,26) line series: fast EMA minus slow EMA, aligned at the
slow EMA's first defined index. -/
def macdSeries (xs : List ℚ) : List ℚ :=
  List.zipWith (fun a b => a - b) ((emaSeries 12 xs).drop 14) (emaSeries 26 xs)

/-- Last value of the MACD line, `macd[-1]`. -/
def macdLast (xs : List ℚ) : ℚ :=
  (macdSeries xs).getLastD 0

/-- Last value of the MACD signal line (`signalperiod = 9`), `signal[-1]`. -/
def macdSignalLast (xs : List ℚ) : ℚ :=
  (emaSeries 9 (macdSeries xs)).getLastD 0

/-- The last `n` elements of a series (the window TA-Lib's BBANDS uses for
the latest output). -/
def lastWindow (n : ℕ) (xs : List ℚ) : List ℚ :=
  xs.drop (xs.length - n)

/-- `middle[-1]` of `talib.BBANDS(closes, timeperiod=20)`: the SMA of the
last 20 closes. -/
def bbMiddleLast (xs : List ℚ) : ℚ :=
  (lastWindow 20 xs).sum / 20

/-- The population variance of the last 20 closes; TA-Lib's BBANDS
standard deviation is its square root. -/
def bbVarLast (xs : List ℚ) : ℚ :=
  let w := lastWindow 20 xs
  let m := w.sum / 20
  (w.map (fun x => (x - m) * (x - m))).sum / 20

/-- `current_price < lower[-1]`, i.e. `c < m − 2·√v`, stated without the
square root: equivalent to `c < m ∧ 4·v < (m − c)²` (see
`lt_sub_two_sqrt_iff`). -/
def belowLowerBand (xs : List ℚ) : Bool :=
  let c := xs.getLastD 0
  let m := bbMiddleLast xs
  let v := bbVarLast xs
  decide (c < m) && decide (4 * v < (m - c) * (m - c))

/-- `current_price > upper[-1]`, i.e. `c > m + 2·√v`, stated without the
square root: equivalent to `m < c ∧ 4·v < (c − m)²`. -/
def aboveUpperBand (xs : List ℚ) : Bool :=
  let c := xs.getLastD 0
  let m := bbMiddleLast xs
  let v := bbVarLast xs
  decide (m < c) && decide (4 * v < (c - m) * (c - m))

/-- Bridging lemma for the square-root-free band comparison: for a
nonnegative variance `v`, `c < m − 2·√v` holds exactly when `c < m` and
`4·v < (m − c)²`. -/
theorem lt_sub_two_sqrt_iff (c m v : ℝ) (hv : 0 ≤ v) :
    c < m - 2 * Real.sqrt v ↔ (c < m ∧ 4 * v < (m - c) ^ 2) := by
  have hs : 2 * Real.sqrt v = Real.sqrt (4 * v) := by
    rw [show (4 : ℝ) * v = 2 ^ 2 * v by ring, Real.sqrt_mul (by positivity),
      Real.sqrt_sq (by norm_num)]
  constructor
  · intro h
    have hnn : (0 : ℝ) ≤ 2 * Real.sqrt v := by positivity
    have hcm : c < m := by linarith
    refine ⟨hcm, ?_⟩
    have h2 : 2 * Real.sqrt v < m - c := by linarith
    have h3 : (2 * Real.sqrt v) ^ 2 < (m - c) ^ 2 := by
      apply sq_lt_sq' <;> linarith
    have h4 : (2 * Real.sqrt v) ^ 2 = 4 * v := by
      rw [mul_pow, Real.sq_sqrt hv]; ring
    linarith
  · rintro ⟨hcm, h⟩
    have hpos : 0 < m - c := by linarith
    have : Real.sqrt (4 * v) < m - c := by
      rw [show m - c = Real.sqrt ((m - c) ^ 2) by
        rw [Real.sqrt_sq hpos.le]]
      exact Real.sqrt_lt_sqrt (by linarith) h
    rw [hs] at *
    linarith

/-! ### Signal evaluators (`_check_momentum_signal`, `_check_mean_reversion_signal`) -/

/-- Shallow embedding of `_check_momentum_signal`.  `talibAvailable` models
whether `import talib` succeeds (an `ImportError` returns `None`);
`fetch` models the `webull.get_bars(symbol, "1D", 100)` call, whose
exceptions are caught by the outer `try/except` and return `None`.
`if not bars or len(bars) < 50` is covered by the single length test. -/
def checkMomentumSignal (talibAvailable : Bool) (strategy : Strategy)
    (fetch : FetchResult) : Option TradeSignal :=
  if !talibAvailable then none
  else
    match fetch with
    | .err _ => none
    | .ok bars =>
      if bars.length < 50 then none
      else
        let closes := bars.map Bar.close
        let currentRsi := rsiLast 14 closes
        let currentMacd := macdLast closes
        let currentSignal := macdSignalLast closes
        let currentPrice := closes.getLastD 0
        if currentRsi < 30 ∧ currentSignal < currentMacd then
          some { symbol := strategy.parameters.getSymbol, side := "BUY",
                 quantity := strategy.parameters.getQuantity, price := currentPrice }
        else if 70 < currentRsi ∧ currentMacd < currentSignal then
          some { symbol := strategy.parameters.getSymbol, side := "SELL",
                 quantity := strategy.parameters.getQuantity, price := currentPrice }
        else none

/-- Shallow embedding of `_check_mean_reversion_signal` (Bollinger bands
over `webull.get_bars(symbol, "1D", 50)`; `if not bars or len(bars) < 20`
is covered by the single length test). -/
def checkMeanReversionSignal (talibAvailable : Bool) (strategy : Strategy)
    (fetch : FetchResult) : Option TradeSignal :=
  if !talibAvailable then none
  else
    match fetch with
    | .err _ => none
    | .ok bars =>
      if bars.length < 20 then none
      else
        let closes := bars.map Bar.close
        let currentPrice := closes.getLastD 0
        if belowLowerBand closes then
          some { symbol := strategy.parameters.getSymbol, side := "BUY",
                 quantity := strategy.parameters.getQuantity, price := currentPrice }
        else if aboveUpperBand closes then
          some { symbol := strategy.parameters.getSymbol, side := "SELL",
                 quantity := strategy.parameters.getQuantity, price := currentPrice }
        else none

/-! ### Trade execution and the `execute_strategy` task -/

/-- The column and relationship names declared on the `Trade` ORM model
(`models.py`, class `Trade`): SQLAlchemy's declarative constructor
accepts exactly these as keyword arguments and raises `TypeError` for
any other. -/
def tradeModelAttrs : List String :=
  ["id", "user_id", "portfolio_id", "strategy_id", "exchange_name", "symbol",
   "asset_class", "side", "order_type", "quantity", "price", "executed_price",
   "status", "order_id", "fees", "profit_loss", "executed_at", "created_at",
   "portfolio", "strategy"]

/-- The keyword arguments `_execute_trade` passes to `Trade(...)`, in
source order.  `total_value` is not a declared column or relationship of
the Trade model. -/
def executeTradeKwargs : List String :=
  ["portfolio_id", "symbol", "side", "quantity", "price", "total_value",
   "order_type", "status", "executed_at"]

/-- The `Trade(...)` constructor call made by `_execute_trade`:
SQLAlchemy's declarative constructor raises `TypeError` at a keyword
argument that is not a declared column or relationship.  Because
`total_value` is such a keyword, the call always raises; on the (dead)
success path the record would be built exactly as `_execute_trade`
writes it.  (Even past this raise, the commit would violate the NOT NULL
constraints on the unset `user_id`, `exchange_name` and `asset_class`
columns.) -/
def tradeConstructor (portfolio : Portfolio) (signal : TradeSignal)
    (total_value : ℚ) (now : Nat) : Except String Trade :=
  match executeTradeKwargs.find? (fun k => ! tradeModelAttrs.contains k) with
  | some k => .error (k ++ " is an invalid keyword argument for Trade")
  | none =>
    .ok { portfolio_id := portfolio.id, symbol := signal.symbol,
          side := signal.side, quantity := signal.quantity,
          price := signal.price, total_value := total_value,
          order_type := "market", status := "executed", executed_at := now }

/-- Shallow embedding of `_execute_trade`: computes
`total_value = quantity * price` and calls the `Trade` constructor.  The
constructor raises (see `tradeConstructor`), the `except` block rolls the
session back and the function returns `None` — nothing is ever inserted.
On the dead success path the record would be added and committed and the
trade returned.  No Position upsert and no Portfolio balance update
exists on any path. -/
def executeTrade (db : DB) (portfolio : Portfolio) (signal : TradeSignal)
    (now : Nat) : DB × Option Trade :=
  let total_value := signal.quantity * signal.price
  match tradeConstructor portfolio signal total_value now with
  | .error _ => (db, none)
  | .ok trade => ({ db with trades := db.trades ++ [trade] }, some trade)

/-- The job-result dict returned by `execute_strategy` (the keys shared by
its `success` and `error` shapes). -/
structure JobResult where
  status : String
  message : Option String
  trades_executed : Option Nat
deriving DecidableEq

/-- The query `session.query(Strategy).filter(Strategy.id == sid,
Strategy.is_active == True).first()`. -/
def findActiveStrategy (db : DB) (sid : Nat) : Option Strategy :=
  (db.strategies.filter (fun s => s.id == sid && s.is_active)).head?

/-- The query `session.query(Portfolio).filter(Portfolio.id == pid).first()`. -/
def findPortfolio (db : DB) (pid : Nat) : Option Portfolio :=
  (db.portfolios.filter (fun p => p.id == pid)).head?

/-- The per-type signal dispatch inside `execute_strategy`: `momentum` and
`mean_reversion` call their check function; any other type produces no
signal. -/
def evaluateSignal (strategy : Strategy) (talibAvailable : Bool)
    (fetch : FetchResult) : Option TradeSignal :=
  if strategy.strategy_type == "momentum" then
    checkMomentumSignal talibAvailable strategy fetch
  else if strategy.strategy_type == "mean_reversion" then
    checkMeanReversionSignal talibAvailable strategy fetch
  else none

/-- Shallow embedding of the `execute_strategy` Celery task body: look up
the active strategy (an inactive or missing strategy returns the
`"error"` dict), look up its portfolio, dispatch the signal check, hand
any intent to `_execute_trade` (counting the trade only `if trade:` — and
since `_execute_trade` always returns `None`, the count stays 0), stamp
`last_executed_at`, commit, and return the `"success"` dict with the
executed-trade count. -/
def executeStrategy (db : DB) (sid : Nat) (talibAvailable : Bool)
    (fetch : FetchResult) (now : Nat) : DB × JobResult :=
  match findActiveStrategy db sid with
  | none =>
    (db, { status := "error", message := some "Strategy not found or inactive",
           trades_executed := none })
  | some strategy =>
    match findPortfolio db strategy.portfolio_id with
    | none =>
      (db, { status := "error", message := some "Portfolio not found",
             trades_executed := none })
    | some portfolio =>
      let step : DB × Nat :=
        match evaluateSignal strategy talibAvailable fetch with
        | some sig =>
          let r := executeTrade db portfolio sig now
          (r.1, match r.2 with | some _ => 1 | none => 0)
        | none => (db, 0)
      let db2 : DB :=
        { step.1 with
          strategies := step.1.strategies.map (fun s =>
            if s.id == sid then { s with last_executed_at := some now } else s) }
      (db2, { status := "success", message := none, trades_executed := some step.2 })

/-! ### Bookkeeping views used by the specification's ledger invariants -/

/-- The executed trades of one portfolio. -/
def portfolioTrades (db : DB) (pid : Nat) : List Trade :=
  db.trades.filter (fun t => t.portfolio_id == pid)

/-- Total value of this portfolio's executed buy trades. -/
def buyTotal (ts : List Trade) : ℚ :=
  ((ts.filter (fun t => t.side == "BUY" && t.status == "executed")).map
    Trade.total_value).sum

/-- Total value of this portfolio's executed sell trades. -/
def sellTotal (ts : List Trade) : ℚ :=
  ((ts.filter (fun t => t.side == "SELL" && t.status == "executed")).map
    Trade.total_value).sum

/-- The `current_balance` of the portfolio with the given id, if present. -/
def currentBalanceOf (db : DB) (pid : Nat) : Option ℚ :=
  ((db.portfolios.filter (fun p => p.id == pid)).head?).map Portfolio.current_balance

/-- Signed sum (buys minus sells) of the executed trade quantities for one
(portfolio, symbol) pair. -/
def signedTradeSum (db : DB) (pid : Nat) (sym : String) : ℚ :=
  ((db.trades.filter (fun t =>
      t.portfolio_id == pid && t.symbol == sym && t.status == "executed")).map
    (fun t => if t.side == "BUY" then t.quantity else -t.quantity)).sum

/-- The recorded Position quantity for a (portfolio, symbol) pair; `0` when
no Position row exists. -/
def positionQuantity (db : DB) (pid : Nat) (sym : String) : ℚ :=
  (((db.positions.filter (fun q =>
      q.portfolio_id == pid && q.symbol == sym)).head?).map Position.quantity).getD 0

/-- Shallow embedding of the `create_portfolio` route (`portfolio.py`,
kept to the trading-relevant columns): the new Portfolio row is built
with `current_balance = request.initial_balance` and committed.  (All
keywords passed there are declared columns, so this constructor
succeeds.) -/
def createPortfolio (db : DB) (pid : Nat) (initial_balance : ℚ)
    (currency : String) (is_paper_trading : Bool) : DB :=
  { db with portfolios := db.portfolios ++
      [{ id := pid, initial_balance := initial_balance,
         current_balance := initial_balance, currency := currency,
         is_paper_trading := is_paper_trading }] }

/-- The specification's ledger equation as a predicate on a database
state: every portfolio's `current_balance` equals its `initial_balance`
minus the executed buy total plus the executed sell total. -/
def ledgerBalanced (db : DB) : Prop :=
  ∀ p ∈ db.portfolios,
    p.current_balance = p.initial_balance
      - buyTotal (portfolioTrades db p.id) + sellTotal (portfolioTrades db p.id)

instance decidableLedgerBalanced (db : DB) : Decidable (ledgerBalanced db) := by
  unfold ledgerBalanced
  infer_instance

/-- One operation of the strategy-execution engine: a dispatched
`execute_strategy` job. -/
inductive EngineOp where
  | runStrategy (sid : Nat) (t : Bool) (f : FetchResult) (now : Nat)

/-- Apply one engine operation to the database. -/
def applyOp (db : DB) (op : EngineOp) : DB :=
  match op with
  | .runStrategy sid t f now => (executeStrategy db sid t f now).1

/-! ### Worker-pool model

The repository dispatches `execute_strategy` to Celery workers
(`execute_strategy.delay(...)` in the strategies route).  The task body
contains no lease acquisition, lock, or in-flight check of any kind, and
no table of the data model encodes one, so beginning an execution is
unconditionally enabled regardless of the jobs already running for the
same strategy. -/

/-- The in-flight jobs of the worker pool, as a multiset of strategy ids. -/
structure PoolState where
  inFlight : List Nat
deriving DecidableEq

/-- A scheduling event: a worker starts running `execute_strategy` for a
strategy, or a running job finishes. -/
inductive PoolEvent where
  | start (sid : Nat)
  | finish (sid : Nat)
deriving DecidableEq

/-- One scheduling step.  Because `execute_strategy` performs no lease
acquisition, `start` always succeeds and simply adds the job; `finish`
removes one running job. -/
def poolStep : PoolState → PoolEvent → PoolState
  | st, .start sid => { inFlight := sid :: st.inFlight }
  | st, .finish sid => { inFlight := st.inFlight.erase sid }

/-- Run a sequence of scheduling events from the idle pool. -/
def poolRun (evs : List PoolEvent) : PoolState :=
  evs.foldl poolStep { inFlight := [] }

/-- Number of in-flight jobs for one strategy. -/
def inFlightCount (st : PoolState) (sid : Nat) : Nat :=
  st.inFlight.count sid

/-! ### Concrete inputs used by counterexamples and witnesses -/

/-- A flat OHLCV bar at a given close. -/
def mkFlatBar (c : ℚ) : Bar :=
  { timestamp := 0, op := c, hi := c, lo := c, close := c, volume := 0 }

/-- A momentum strategy configured with symbol AAPL and quantity 10. -/
def cxStrategy : Strategy :=
  { id := 1, portfolio_id := 0, strategy_type := "momentum",
    parameters := { symbol := some "AAPL", quantity := some 10 },
    is_active := true, last_executed_at := none }

/-- A mean-reversion strategy configured with symbol AAPL and quantity 5. -/
def cxMrStrategy : Strategy :=
  { id := 2, portfolio_id := 0, strategy_type := "mean_reversion",
    parameters := { symbol := some "AAPL", quantity := some 5 },
    is_active := true, last_executed_at := none }

/-- The momentum strategy, deactivated. -/
def cxInactiveStrategy : Strategy :=
  { cxStrategy with is_active := false }

/-- A paper-trading portfolio with balance 10000. -/
def cxPortfolio : Portfolio :=
  { id := 0, initial_balance := 10000, current_balance := 10000,
    currency := "USD", is_paper_trading := true }

/-- A database holding the two active strategies and their portfolio. -/
def cxDB : DB :=
  { strategies := [cxStrategy, cxMrStrategy], portfolios := [cxPortfolio],
    trades := [], positions := [] }

/-- A database whose only strategy is inactive. -/
def cxInactiveDB : DB :=
  { strategies := [cxInactiveStrategy], portfolios := [cxPortfolio],
    trades := [], positions := [] }

/-- A sell intent: 10 AAPL at 80 (no position is held in `cxDB`). -/
def cxSellSignal : TradeSignal :=
  { symbol := "AAPL", side := "SELL", quantity := 10, price := 80 }

/-- Fifty flat bars at close 100. -/
def flatBars50 : List Bar := List.replicate 50 (mkFlatBar 100)

/-- The specification's mean-reversion scenario: twenty flat bars at 100
followed by one bar at 80. -/
def scenarioBars : List Bar := (List.replicate 20 (mkFlatBar 100)) ++ [mkFlatBar 80]

/-- A too-short series: ten flat bars. -/
def shortBars : List Bar := List.replicate 10 (mkFlatBar 100)

/-! Batteries marks the ℚ field operations `@[irreducible]`; re-allow
unfolding locally so that concrete evaluations can go through `decide`. -/

attribute [local semireducible] Rat.add Rat.mul Rat.sub Rat.inv

/-! ### Helper lemmas -/

theorem checkMomentumSignal_noTalib (s : Strategy) (f : FetchResult) :
    checkMomentumSignal false s f = none := rfl

theorem checkMeanReversionSignal_noTalib (s : Strategy) (f : FetchResult) :
    checkMeanReversionSignal false s f = none := rfl

theorem checkMomentumSignal_err (t : Bool) (s : Strategy) (m : String) :
    checkMomentumSignal t s (.err m) = none := by
  cases t <;> rfl

theorem checkMeanReversionSignal_err (t : Bool) (s : Strategy) (m : String) :
    checkMeanReversionSignal t s (.err m) = none := by
  cases t <;> rfl

theorem checkMomentumSignal_short (t : Bool) (s : Strategy) (bars : List Bar)
    (h : bars.length < 50) : checkMomentumSignal t s (.ok bars) = none := by
  cases t
  · rfl
  · simp [checkMomentumSignal, h]

theorem checkMeanReversionSignal_short (t : Bool) (s : Strategy) (bars : List Bar)
    (h : bars.length < 20) : checkMeanReversionSignal t s (.ok bars) = none := by
  cases t
  · rfl
  · simp [checkMeanReversionSignal, h]

theorem evaluateSignal_err (s : Strategy) (t : Bool) (m : String) :
    evaluateSignal s t (.err m) = none := by
  unfold evaluateSignal
  split_ifs <;> simp [checkMomentumSignal_err, checkMeanReversionSignal_err]

theorem evaluateSignal_noTalib (s : Strategy) (f : FetchResult) :
    evaluateSignal s false f = none := by
  unfold evaluateSignal
  split_ifs <;> rfl

theorem executeStrategy_signal_none (db : DB) (sid : Nat) (t : Bool)
    (f : FetchResult) (now : Nat) (s : Strategy) (p : Portfolio)
    (hs : findActiveStrategy db sid = some s)
    (hp : findPortfolio db s.portfolio_id = some p)
    (hsig : evaluateSignal s t f = none) :
    (executeStrategy db sid t f now).2 =
      { status := "success", message := none, trades_executed := some 0 } := by
  unfold executeStrategy
  simp only [hs, hp, hsig]

theorem executeTrade_always_fails (db : DB) (portfolio : Portfolio)
    (signal : TradeSignal) (now : Nat) :
    executeTrade db portfolio signal now = (db, none) := rfl

theorem executeStrategy_tables_unchanged (db : DB) (sid : Nat) (t : Bool)
    (f : FetchResult) (now : Nat) :
    (executeStrategy db sid t f now).1.trades = db.trades ∧
    (executeStrategy db sid t f now).1.portfolios = db.portfolios ∧
    (executeStrategy db sid t f now).1.positions = db.positions := by
  unfold executeStrategy
  cases findActiveStrategy db sid with
  | none => exact ⟨rfl, rfl, rfl⟩
  | some s =>
    dsimp only
    cases findPortfolio db s.portfolio_id with
    | none => exact ⟨rfl, rfl, rfl⟩
    | some p =>
      dsimp only
      cases evaluateSignal s t f with
      | none => exact ⟨rfl, rfl, rfl⟩
      | some sig => exact ⟨rfl, rfl, rfl⟩

theorem ledgerBalanced_congr (db1 db2 : DB) (hp : db2.portfolios = db1.portfolios)
    (ht : db2.trades = db1.trades) (h : ledgerBalanced db1) : ledgerBalanced db2 := by
  intro p hmem
  have hpt : portfolioTrades db2 p.id = portfolioTrades db1 p.id := by
    unfold portfolioTrades
    rw [ht]
  rw [hpt]
  exact h p (hp ▸ hmem)

/-! ### Claim C1 — atomicity of Trade + Position + Portfolio -/

/-- C1 counterexample: a job whose evaluator produces a BUY intent hands
it to `_execute_trade`, whose Trade constructor raises on the undeclared
`total_value` keyword; the transaction is rolled back and `None` is
returned, yet the JobResult still records `success` with
`trades_executed = 0` — the caller never receives the typed error (and
the failed JobResult) the claim requires on a failing step. -/
theorem trade_failure_reports_success :
    evaluateSignal cxMrStrategy true (.ok scenarioBars) =
      some { symbol := "AAPL", side := "BUY", quantity := 5, price := 80 } ∧
    (executeTrade cxDB cxPortfolio
      { symbol := "AAPL", side := "BUY", quantity := 5, price := 80 } 0).2 = none ∧
    (executeStrategy cxDB 2 true (.ok scenarioBars) 0).1.trades = [] ∧
    (executeStrategy cxDB 2 true (.ok scenarioBars) 0).2 =
      { status := "success", message := none, trades_executed := some 0 } := by
  decide

/-- C1 (amended): every trade intent fails inside `_execute_trade`: the
Trade constructor rejects the undeclared `total_value` keyword, the
transaction is rolled back, and the caller receives `None` rather than a
typed error; nothing — Trade, Position or Portfolio — is ever committed,
so a partial commit never exists, but neither does the claimed atomic
three-way commit. -/
theorem executeTrade_rolls_back_everything (db : DB) (portfolio : Portfolio)
    (signal : TradeSignal) (now : Nat) :
    tradeConstructor portfolio signal (signal.quantity * signal.price) now =
      .error "total_value is an invalid keyword argument for Trade" ∧
    executeTrade db portfolio signal now = (db, none) := by
  exact ⟨rfl, rfl⟩

/-! ### Claim C2 — the portfolio balance ledger equation -/

/-- C2: for every sequence of engine operations from a ledger-balanced
state, the equation `current_balance = initial_balance − Σ buy
total_value + Σ sell total_value` keeps holding, and the executed-trade
ledger is unchanged (no engine step ever records an executed trade, so
the per-trade adjustment clause is vacuously respected); portfolio
creation establishes the equation with both sums zero. -/
theorem ledger_equation_holds (db : DB) (ops : List EngineOp) (pid : Nat)
    (ibal : ℚ) (cur : String) (paper : Bool) (hdb : ledgerBalanced db) :
    ledgerBalanced (ops.foldl applyOp db) ∧
    (ops.foldl applyOp db).trades = db.trades ∧
    (portfolioTrades db pid = [] →
      ledgerBalanced (createPortfolio db pid ibal cur paper)) := by
  have htr : ∀ (l : List EngineOp) (d : DB), (l.foldl applyOp d).trades = d.trades := by
    intro l
    induction l with
    | nil => intro d; rfl
    | cons op rest ih =>
      intro d
      rw [List.foldl_cons, ih]
      cases op with
      | runStrategy sid t f now => exact (executeStrategy_tables_unchanged d sid t f now).1
  have hpf : ∀ (l : List EngineOp) (d : DB),
      (l.foldl applyOp d).portfolios = d.portfolios := by
    intro l
    induction l with
    | nil => intro d; rfl
    | cons op rest ih =>
      intro d
      rw [List.foldl_cons, ih]
      cases op with
      | runStrategy sid t f now =>
        exact (executeStrategy_tables_unchanged d sid t f now).2.1
  refine ⟨ledgerBalanced_congr db _ (hpf ops db) (htr ops db) hdb, htr ops db, ?_⟩
  intro hnt p hmem
  have hmem2 : p ∈ db.portfolios ++
      [{ id := pid, initial_balance := ibal, current_balance := ibal,
         currency := cur, is_paper_trading := paper }] := hmem
  rcases List.mem_append.mp hmem2 with hin | hin
  · exact hdb p hin
  · rw [List.mem_singleton] at hin
    subst hin
    show ibal = ibal
      - buyTotal (portfolioTrades (createPortfolio db pid ibal cur paper) pid)
      + sellTotal (portfolioTrades (createPortfolio db pid ibal cur paper) pid)
    have hpt : portfolioTrades (createPortfolio db pid ibal cur paper) pid =
        portfolioTrades db pid := rfl
    rw [hpt, hnt]
    simp [buyTotal, sellTotal]

/-- C2 witness: the equation holds on `cxDB`, is preserved across a job
whose evaluator produces a BUY intent (the mean-reversion scenario
series), and is established for a freshly created portfolio. -/
theorem ledger_equation_witness :
    ledgerBalanced cxDB ∧
    portfolioTrades cxDB 3 = [] ∧
    ledgerBalanced ([EngineOp.runStrategy 2 true (.ok scenarioBars) 0].foldl
      applyOp cxDB) ∧
    ledgerBalanced (createPortfolio cxDB 3 5000 "USD" true) := by
  refine ⟨by decide, by decide, ?_, ?_⟩
  · exact (ledger_equation_holds cxDB [EngineOp.runStrategy 2 true (.ok scenarioBars) 0]
      3 5000 "USD" true (by decide)).1
  · exact (ledger_equation_holds cxDB [] 3 5000 "USD" true (by decide)).2.2 (by decide)

/-! ### Claim C3 — Position quantity as the signed trade sum -/

/-- C3 counterexample: the uncovered sell does fail, but with the
constructor TypeError swallowed into `None` — not with an
`InsufficientPosition` error (no such error exists anywhere in the
code); the attempt writes neither a Trade nor a Position row. -/
theorem oversell_fails_without_insufficient_position :
    positionQuantity cxDB 0 "AAPL" = 0 ∧
    tradeConstructor cxPortfolio cxSellSignal
        (cxSellSignal.quantity * cxSellSignal.price) 0 =
      .error "total_value is an invalid keyword argument for Trade" ∧
    (¬ tradeConstructor cxPortfolio cxSellSignal
        (cxSellSignal.quantity * cxSellSignal.price) 0 =
      .error "InsufficientPosition") ∧
    executeTrade cxDB cxPortfolio cxSellSignal 0 = (cxDB, none) := by
  decide

/-- C3 (amended): the positions table is never written and no trade is
ever executed, so `Position.quantity` stays equal to the signed
executed-trade sum (the equality is preserved by every engine step, and
both sides are 0 on the empty tables, hence never negative); a sell
exceeding the held position fails like every trade — through the
swallowed constructor error, returning `None` — not with an
`InsufficientPosition` error, and without driving any quantity
negative. -/
theorem position_signed_sum_invariant (db : DB) (portfolio : Portfolio)
    (signal : TradeSignal) (sid now : Nat) (t : Bool) (f : FetchResult)
    (pid : Nat) (sym : String) :
    (executeTrade db portfolio signal now).1.positions = db.positions ∧
    (executeTrade db portfolio signal now).1.trades = db.trades ∧
    (executeTrade db portfolio signal now).2 = none ∧
    (positionQuantity db pid sym = signedTradeSum db pid sym →
      positionQuantity (executeStrategy db sid t f now).1 pid sym =
        signedTradeSum (executeStrategy db sid t f now).1 pid sym) ∧
    (db.positions = [] → positionQuantity db pid sym = 0) := by
  have hq : positionQuantity (executeStrategy db sid t f now).1 pid sym =
      positionQuantity db pid sym := by
    unfold positionQuantity
    rw [(executeStrategy_tables_unchanged db sid t f now).2.2]
  have hsum : signedTradeSum (executeStrategy db sid t f now).1 pid sym =
      signedTradeSum db pid sym := by
    unfold signedTradeSum
    rw [(executeStrategy_tables_unchanged db sid t f now).1]
  refine ⟨rfl, rfl, rfl, ?_, ?_⟩
  · intro h
    rw [hq, hsum]
    exact h
  · intro hp
    simp [positionQuantity, hp]

/-- C3 witness: concrete application across the job whose evaluator
produces a BUY intent. -/
theorem position_signed_sum_witness :
    positionQuantity cxDB 0 "AAPL" = signedTradeSum cxDB 0 "AAPL" ∧
    positionQuantity (executeStrategy cxDB 2 true (.ok scenarioBars) 0).1 0 "AAPL" =
      signedTradeSum (executeStrategy cxDB 2 true (.ok scenarioBars) 0).1 0 "AAPL" ∧
    cxDB.positions = [] ∧
    positionQuantity cxDB 0 "AAPL" = 0 := by
  refine ⟨by decide, ?_, by decide, ?_⟩
  · exact (position_signed_sum_invariant cxDB cxPortfolio cxSellSignal 2 0 true
      (.ok scenarioBars) 0 "AAPL").2.2.2.1 (by decide)
  · exact (position_signed_sum_invariant cxDB cxPortfolio cxSellSignal 2 0 true
      (.ok scenarioBars) 0 "AAPL").2.2.2.2 (by decide)

/-! ### Claim C4 — JobResult statuses -/

/-- C4 counterexample: a job for an inactive strategy returns status
`error`, which is none of `success`, `skipped`, `failed` — refuting both
the claimed status set and the claimed `skipped` outcome for inactive
strategies. -/
theorem inactive_strategy_gives_error_status :
    (executeStrategy cxInactiveDB 1 true (.ok []) 0).2.status = "error" ∧
    ¬ ((executeStrategy cxInactiveDB 1 true (.ok []) 0).2.status = "success" ∨
       (executeStrategy cxInactiveDB 1 true (.ok []) 0).2.status = "skipped" ∨
       (executeStrategy cxInactiveDB 1 true (.ok []) 0).2.status = "failed") := by
  decide

/-- C4 (amended): every job result status is `success` or `error`; an
inactive or missing strategy yields the error dict `Strategy not found
or inactive` (signals are not evaluated), and a missing portfolio yields
the error dict `Portfolio not found`. -/
theorem executeStrategy_status_success_or_error (db : DB) (sid : Nat) (t : Bool)
    (f : FetchResult) (now : Nat) :
    ((executeStrategy db sid t f now).2.status = "success" ∨
     (executeStrategy db sid t f now).2.status = "error") ∧
    (findActiveStrategy db sid = none →
      (executeStrategy db sid t f now).2 =
        { status := "error", message := some "Strategy not found or inactive",
          trades_executed := none }) ∧
    (∀ s, findActiveStrategy db sid = some s →
      findPortfolio db s.portfolio_id = none →
      (executeStrategy db sid t f now).2 =
        { status := "error", message := some "Portfolio not found",
          trades_executed := none }) := by
  refine ⟨?_, ?_, ?_⟩
  · unfold executeStrategy
    cases findActiveStrategy db sid with
    | none => exact Or.inr rfl
    | some s =>
      dsimp only
      cases findPortfolio db s.portfolio_id with
      | none => exact Or.inr rfl
      | some p => exact Or.inl rfl
  · intro h
    unfold executeStrategy
    simp only [h]
  · intro s hs hp
    unfold executeStrategy
    simp only [hs, hp]

/-- C4 witness: concrete application of the amended theorem to the
database whose only strategy is inactive. -/
theorem executeStrategy_status_witness :
    findActiveStrategy cxInactiveDB 1 = none ∧
    (executeStrategy cxInactiveDB 1 true (.ok []) 0).2 =
      { status := "error", message := some "Strategy not found or inactive",
        trades_executed := none } :=
  ⟨by decide,
   (executeStrategy_status_success_or_error cxInactiveDB 1 true (.ok []) 0).2.1 (by decide)⟩

/-! ### Claim C9 — per-strategy mutual exclusion -/

/-- C9 counterexample: two concurrent triggers for strategy 1 both start
executing — the pool reaches a state with two in-flight jobs for the
same strategy, refuting the claimed mutual exclusion. -/
theorem two_starts_same_strategy_overlap :
    inFlightCount (poolRun [.start 1, .start 1]) 1 = 2 ∧
    ¬ inFlightCount (poolRun [.start 1, .start 1]) 1 ≤ 1 := by
  decide

/-- C9 (amended): the code has no per-strategy lease: starting a job is
always enabled and simply adds one more in-flight job for that strategy
— the second concurrent trigger is neither requeued nor blocked. -/
theorem start_always_enabled_no_lease (st : PoolState) (sid : Nat) :
    poolStep st (.start sid) = { inFlight := sid :: st.inFlight } ∧
    inFlightCount (poolStep st (.start sid)) sid = inFlightCount st sid + 1 := by
  refine ⟨rfl, ?_⟩
  simp [inFlightCount, poolStep]

/-! ### Claim C5 — momentum signal characterization -/

/-- C5: for every series of at least 50 bars, the momentum evaluator
emits a BUY intent exactly when RSI(14) of the closes is below 30 and
the MACD line is above its signal line, a SELL intent exactly when RSI
is above 70 and the MACD line is below its signal line, and otherwise
none; any emitted intent carries the configured quantity and the latest
close as its price. -/
theorem momentum_signal_characterization (strategy : Strategy) (bars : List Bar)
    (h : 50 ≤ bars.length) :
    (checkMomentumSignal true strategy (.ok bars) =
        some { symbol := strategy.parameters.getSymbol, side := "BUY",
               quantity := strategy.parameters.getQuantity,
               price := (bars.map Bar.close).getLastD 0 } ↔
      (rsiLast 14 (bars.map Bar.close) < 30 ∧
       macdSignalLast (bars.map Bar.close) < macdLast (bars.map Bar.close))) ∧
    (checkMomentumSignal true strategy (.ok bars) =
        some { symbol := strategy.parameters.getSymbol, side := "SELL",
               quantity := strategy.parameters.getQuantity,
               price := (bars.map Bar.close).getLastD 0 } ↔
      (70 < rsiLast 14 (bars.map Bar.close) ∧
       macdLast (bars.map Bar.close) < macdSignalLast (bars.map Bar.close))) ∧
    (∀ sig, checkMomentumSignal true strategy (.ok bars) = some sig →
      sig.quantity = strategy.parameters.getQuantity ∧
      sig.price = (bars.map Bar.close).getLastD 0 ∧
      sig.symbol = strategy.parameters.getSymbol ∧
      (sig.side = "BUY" ∨ sig.side = "SELL")) ∧
    (¬ (rsiLast 14 (bars.map Bar.close) < 30 ∧
        macdSignalLast (bars.map Bar.close) < macdLast (bars.map Bar.close)) →
     ¬ (70 < rsiLast 14 (bars.map Bar.close) ∧
        macdLast (bars.map Bar.close) < macdSignalLast (bars.map Bar.close)) →
     checkMomentumSignal true strategy (.ok bars) = none) := by
  have hlen : ¬ bars.length < 50 := by omega
  simp only [checkMomentumSignal, Bool.not_true, Bool.false_eq_true, if_false,
    if_neg hlen]
  split_ifs with h1 h2
  · refine ⟨iff_of_true rfl h1, ?_, ?_, ?_⟩
    · refine iff_of_false ?_ ?_
      · intro hEq
        injection hEq with hEq2
        have h3 : ("BUY" : String) = "SELL" := congrArg TradeSignal.side hEq2
        exact absurd h3 (by decide)
      · rintro ⟨h70, _⟩
        exact absurd h1.1 (by linarith)
    · rintro sig hEq
      injection hEq with hEq
      subst hEq
      exact ⟨rfl, rfl, rfl, Or.inl rfl⟩
    · intro hnb _
      exact absurd h1 hnb
  · refine ⟨?_, iff_of_true rfl h2, ?_, ?_⟩
    · refine iff_of_false ?_ h1
      intro hEq
      injection hEq with hEq2
      have h3 : ("SELL" : String) = "BUY" := congrArg TradeSignal.side hEq2
      exact absurd h3 (by decide)
    · rintro sig hEq
      injection hEq with hEq
      subst hEq
      exact ⟨rfl, rfl, rfl, Or.inr rfl⟩
    · intro _ hns
      exact absurd h2 hns
  · refine ⟨iff_of_false (by simp) h1, iff_of_false (by simp) h2, ?_, fun _ _ => rfl⟩
    rintro sig hEq
    cases hEq

set_option maxRecDepth 8000 in
/-- C5 witness: fifty flat bars satisfy the length bound and produce no
intent (RSI is 0 so neither branch condition holds). -/
theorem momentum_signal_witness :
    50 ≤ flatBars50.length ∧
    checkMomentumSignal true cxStrategy (.ok flatBars50) = none := by
  refine ⟨by decide, ?_⟩
  exact (momentum_signal_characterization cxStrategy flatBars50 (by decide)).2.2.2
    (by decide) (by decide)

/-! ### Claim C6 — mean-reversion signal characterization -/

/-- The two band breaches cannot hold at once (one needs the close below
the middle band, the other above it). -/
theorem below_above_exclusive (xs : List ℚ) :
    ¬ (belowLowerBand xs = true ∧ aboveUpperBand xs = true) := by
  simp only [belowLowerBand, aboveUpperBand, Bool.and_eq_true, decide_eq_true_eq]
  rintro ⟨⟨hcm, _⟩, ⟨hmc, _⟩⟩
  linarith

/-- C6: for every series of at least 20 bars, the mean-reversion
evaluator emits a BUY intent (with the configured quantity, at the
latest close) exactly when the latest close is below the lower
Bollinger(20, 2σ) band, a SELL intent exactly when it is above the upper
band, and otherwise none. -/
theorem mean_reversion_signal_characterization (strategy : Strategy)
    (bars : List Bar) (h : 20 ≤ bars.length) :
    (checkMeanReversionSignal true strategy (.ok bars) =
        some { symbol := strategy.parameters.getSymbol, side := "BUY",
               quantity := strategy.parameters.getQuantity,
               price := (bars.map Bar.close).getLastD 0 } ↔
      belowLowerBand (bars.map Bar.close) = true) ∧
    (checkMeanReversionSignal true strategy (.ok bars) =
        some { symbol := strategy.parameters.getSymbol, side := "SELL",
               quantity := strategy.parameters.getQuantity,
               price := (bars.map Bar.close).getLastD 0 } ↔
      aboveUpperBand (bars.map Bar.close) = true) ∧
    (belowLowerBand (bars.map Bar.close) = false →
     aboveUpperBand (bars.map Bar.close) = false →
     checkMeanReversionSignal true strategy (.ok bars) = none) := by
  have hlen : ¬ bars.length < 20 := by omega
  simp only [checkMeanReversionSignal, Bool.not_true, Bool.false_eq_true, if_false,
    if_neg hlen]
  split_ifs with h1 h2
  · refine ⟨iff_of_true rfl h1, ?_, ?_⟩
    · refine iff_of_false ?_ ?_
      · intro hEq
        injection hEq with hEq2
        have h3 : ("BUY" : String) = "SELL" := congrArg TradeSignal.side hEq2
        exact absurd h3 (by decide)
      · intro hab
        exact below_above_exclusive (bars.map Bar.close) ⟨h1, hab⟩
    · intro hb _
      rw [hb] at h1
      cases h1
  · refine ⟨?_, iff_of_true rfl h2, ?_⟩
    · refine iff_of_false ?_ h1
      intro hEq
      injection hEq with hEq2
      have h3 : ("SELL" : String) = "BUY" := congrArg TradeSignal.side hEq2
      exact absurd h3 (by decide)
    · intro _ ha
      rw [ha] at h2
      cases h2
  · refine ⟨iff_of_false (by simp) h1, iff_of_false (by simp) h2, fun _ _ => rfl⟩

/-- C6 witness: the specification's scenario — twenty flat bars at 100
then one bar at 80 — emits a BUY intent for the configured quantity 5 at
price 80. -/
theorem mean_reversion_scenario_witness :
    20 ≤ scenarioBars.length ∧
    checkMeanReversionSignal true cxMrStrategy (.ok scenarioBars) =
      some { symbol := "AAPL", side := "BUY", quantity := 5, price := 80 } := by
  refine ⟨by decide, ?_⟩
  exact (mean_reversion_signal_characterization cxMrStrategy scenarioBars
    (by decide)).1.mpr (by decide)

/-! ### Claim C7 — too-short series -/

/-- C7 counterexample: for a 10-bar series both evaluators yield no
intent, and the surrounding job for the momentum strategy completes with
status `success` — not the claimed `skipped`. -/
theorem short_series_success_not_skipped :
    checkMomentumSignal true cxStrategy (.ok shortBars) = none ∧
    checkMeanReversionSignal true cxMrStrategy (.ok shortBars) = none ∧
    (executeStrategy cxDB 1 true (.ok shortBars) 0).2.status = "success" ∧
    ¬ (executeStrategy cxDB 1 true (.ok shortBars) 0).2.status = "skipped" := by
  decide

/-- C7 (amended): a series shorter than the per-type minimum (50 bars
momentum, 20 bars mean reversion) yields no trade intent, and the job
completes with status `success` and `trades_executed = 0` — never an
error result for short data. -/
theorem short_series_yields_success_zero_trades (t : Bool) (strategy : Strategy)
    (bars : List Bar) (db : DB) (sid now : Nat) (s : Strategy) (p : Portfolio) :
    (bars.length < 50 → checkMomentumSignal t strategy (.ok bars) = none) ∧
    (bars.length < 20 → checkMeanReversionSignal t strategy (.ok bars) = none) ∧
    (findActiveStrategy db sid = some s → findPortfolio db s.portfolio_id = some p →
      ((s.strategy_type = "momentum" → bars.length < 50 →
        (executeStrategy db sid t (.ok bars) now).2 =
          { status := "success", message := none, trades_executed := some 0 }) ∧
       (s.strategy_type = "mean_reversion" → bars.length < 20 →
        (executeStrategy db sid t (.ok bars) now).2 =
          { status := "success", message := none, trades_executed := some 0 }))) := by
  refine ⟨fun hl => checkMomentumSignal_short t strategy bars hl,
          fun hl => checkMeanReversionSignal_short t strategy bars hl, ?_⟩
  intro hs hp
  constructor
  · intro hty hlen
    apply executeStrategy_signal_none db sid t _ now s p hs hp
    simp [evaluateSignal, hty, checkMomentumSignal_short t s bars hlen]
  · intro hty hlen
    apply executeStrategy_signal_none db sid t _ now s p hs hp
    simp [evaluateSignal, hty, checkMeanReversionSignal_short t s bars hlen]

/-- C7 witness: concrete application of the amended theorem to the
10-bar series and the active momentum strategy of `cxDB`. -/
theorem short_series_witness :
    shortBars.length < 50 ∧
    checkMomentumSignal true cxStrategy (.ok shortBars) = none ∧
    cxStrategy.strategy_type = "momentum" ∧
    (executeStrategy cxDB 1 true (.ok shortBars) 0).2 =
      { status := "success", message := none, trades_executed := some 0 } := by
  refine ⟨by decide, ?_, rfl, ?_⟩
  · exact (short_series_yields_success_zero_trades true cxStrategy shortBars
      cxDB 1 0 cxStrategy cxPortfolio).1 (by decide)
  · exact ((short_series_yields_success_zero_trades true cxStrategy shortBars
      cxDB 1 0 cxStrategy cxPortfolio).2.2 (by decide) (by decide)).1 rfl (by decide)

/-! ### Claim C8 — determinism of signal evaluation -/

/-- C8: signal evaluation is deterministic — identical strategy
parameters, indicator availability and fetched price series always
yield the identical intent (or none), for the dispatch and for both
per-type evaluators. -/
theorem signal_evaluation_deterministic (s1 s2 : Strategy) (t1 t2 : Bool)
    (f1 f2 : FetchResult) (hs : s1 = s2) (ht : t1 = t2) (hf : f1 = f2) :
    evaluateSignal s1 t1 f1 = evaluateSignal s2 t2 f2 ∧
    checkMomentumSignal t1 s1 f1 = checkMomentumSignal t2 s2 f2 ∧
    checkMeanReversionSignal t1 s1 f1 = checkMeanReversionSignal t2 s2 f2 := by
  subst hs; subst ht; subst hf
  exact ⟨rfl, rfl, rfl⟩

/-- C8 witness: concrete application at the flat 50-bar series. -/
theorem signal_evaluation_deterministic_witness :
    evaluateSignal cxStrategy true (.ok flatBars50) =
      evaluateSignal cxStrategy true (.ok flatBars50) ∧
    checkMomentumSignal true cxStrategy (.ok flatBars50) =
      checkMomentumSignal true cxStrategy (.ok flatBars50) ∧
    checkMeanReversionSignal true cxStrategy (.ok flatBars50) =
      checkMeanReversionSignal true cxStrategy (.ok flatBars50) :=
  signal_evaluation_deterministic cxStrategy cxStrategy true true
    (.ok flatBars50) (.ok flatBars50) rfl rfl rfl

/-! ### Claim C10 — internal signal errors are swallowed -/

/-- C10: every failure inside signal evaluation — the indicator library
missing or the provider call raising — is caught and yields no intent,
and the surrounding job (with the strategy and portfolio present) still
completes with status `success` and `trades_executed = 0`. -/
theorem signal_errors_caught_job_success (strategy : Strategy) (t : Bool)
    (msg : String) (f : FetchResult) (db : DB) (sid now : Nat) (s : Strategy)
    (p : Portfolio) (hs : findActiveStrategy db sid = some s)
    (hp : findPortfolio db s.portfolio_id = some p) :
    checkMomentumSignal false strategy f = none ∧
    checkMeanReversionSignal false strategy f = none ∧
    checkMomentumSignal t strategy (.err msg) = none ∧
    checkMeanReversionSignal t strategy (.err msg) = none ∧
    (executeStrategy db sid t (.err msg) now).2 =
      { status := "success", message := none, trades_executed := some 0 } ∧
    (executeStrategy db sid false f now).2 =
      { status := "success", message := none, trades_executed := some 0 } := by
  refine ⟨checkMomentumSignal_noTalib strategy f,
    checkMeanReversionSignal_noTalib strategy f,
    checkMomentumSignal_err t strategy msg,
    checkMeanReversionSignal_err t strategy msg, ?_, ?_⟩
  · exact executeStrategy_signal_none db sid t _ now s p hs hp
      (evaluateSignal_err s t msg)
  · exact executeStrategy_signal_none db sid false f now s p hs hp
      (evaluateSignal_noTalib s f)

/-- C10 witness: concrete application to `cxDB` with a raised provider
error. -/
theorem signal_errors_witness :
    findActiveStrategy cxDB 1 = some cxStrategy ∧
    findPortfolio cxDB cxStrategy.portfolio_id = some cxPortfolio ∧
    (executeStrategy cxDB 1 true (.err "provider timeout") 0).2 =
      { status := "success", message := none, trades_executed := some 0 } := by
  refine ⟨by decide, by decide, ?_⟩
  exact (signal_errors_caught_job_success cxStrategy true "provider timeout"
    (.ok []) cxDB 1 0 cxStrategy cxPortfolio (by decide) (by decide)).2.2.2.2.1

end Plevee
